import Mathlib

/-!
Shallow embedding of `src/emca/certificate/certcrypto/crypto.go` (package
`certcrypto`): key generation, PEM encoding and decoding, CSR construction,
certificate-bundle parsing, expiration inspection, and the self-signed
certificate generator.

Modelling conventions:

* A PEM byte stream is modelled as the sequence of PEM blocks that
  successive calls to Go `pem.Decode` would extract from it; an input in
  which no PEM block can be located is the empty list, so `pem.Decode`
  becomes "take the head of the stream".
* DER payloads are modelled structurally: each `Payload` constructor
  records which marshaller produced the bytes, and the corresponding x509
  parser is its partial inverse (any other payload fails to parse).  This
  encodes the round-trip contract of the Go x509 library
  (`Marshal.../Parse...`, `Create.../Parse...`); `Payload.raw` stands for
  arbitrary other bytes (truncated or foreign data).
* Go `time.Time` is an instant in nanoseconds (`Int`); the zero value
  `time.Time[]` tested by `IsZero` is the instant `0`, and `t.Add(d)` is
  `t + d` with `d` counted in nanoseconds, exactly as Go `time.Duration`.
* Randomness (`rand.Reader`) is made explicit: a function that draws from
  it takes the drawn value as an extra argument (`entropy`,
  `serialEntropy`); `rand.Int(rand.Reader, 1 <<< 128)` yields
  `serialEntropy % 2 ^ 128`.
* A Go function without an error return that can still dereference a nil
  pointer gets an explicit crash outcome (`GoResult.panic`,
  `EncodedPEM.panicNilBlock`).
-/

/-- Elliptic curves used by the key generator: `elliptic.P256()` and
`elliptic.P384()`. -/
inductive Curve where
  | p256
  | p384
  deriving DecidableEq

/-- Model of `*ecdsa.PrivateKey`: the curve and the secret scalar. -/
structure ECPrivateKey where
  curve : Curve
  d : Nat
  deriving DecidableEq

/-- Model of `*rsa.PrivateKey`: the modulus bit size and the key material. -/
structure RSAPrivateKey where
  bits : Nat
  material : Nat
  deriving DecidableEq

/-- Model of `rsa.PublicKey`, the public half of an RSA private key. -/
structure RSAPublicKey where
  bits : Nat
  material : Nat
  deriving DecidableEq

/-- The field access `privKey.PublicKey` of Go. -/
def RSAPrivateKey.PublicKey (k : RSAPrivateKey) : RSAPublicKey :=
  ⟨k.bits, k.material⟩

/-- Model of a signature made with an RSA private key: it records the key
material of the signer, which is what verification compares. -/
structure Signature where
  signer : Nat
  deriving DecidableEq

/-- Signing with an RSA private key. -/
def rsaSign (k : RSAPrivateKey) : Signature :=
  ⟨k.material⟩

/-- Verifying a signature against an RSA public key. -/
def rsaVerify (pub : RSAPublicKey) (sig : Signature) : Bool :=
  sig.signer == pub.material

/-- Model of `crypto.PrivateKey` as produced by `GeneratePrivateKey`:
dynamically either an `*ecdsa.PrivateKey` or an `*rsa.PrivateKey`. -/
inductive PrivateKey where
  | ec (key : ECPrivateKey)
  | rsa (key : RSAPrivateKey)
  deriving DecidableEq

/-- Model of `pkix.Extension`: an OID and a raw DER value. -/
structure Extension where
  Id : List Nat
  Value : List Nat
  deriving DecidableEq

/-- `tlsFeatureExtensionOID = asn1.ObjectIdentifier[1, 3, 6, 1, 5, 5, 7, 1, 24]` -/
def tlsFeatureExtensionOID : List Nat := [1, 3, 6, 1, 5, 5, 7, 1, 24]

/-- `ocspMustStapleFeature = []byte[0x30, 0x03, 0x02, 0x01, 0x05]` -/
def ocspMustStapleFeature : List Nat := [0x30, 0x03, 0x02, 0x01, 0x05]

/-- Model of `x509.CertificateRequest` as created by
`x509.CreateCertificateRequest` from the template built in `GenerateCsr`.
The raw DER form (`Raw`) is identified with this structure: DER encoding is
injective and `x509.ParseCertificateRequest` inverts it. -/
structure CertificateRequest where
  CommonName : String
  DNSNames : List String
  ExtraExtensions : List Extension
  signedBy : PrivateKey
  deriving DecidableEq

/-- Model of `x509.Certificate` restricted to the fields this package sets
or reads. -/
structure Certificate where
  SerialNumber : Nat
  SubjectCommonName : String
  IssuerCommonName : String
  NotBefore : Int
  NotAfter : Int
  KeyUsageKeyEncipherment : Bool
  BasicConstraintsValid : Bool
  IsCA : Bool
  DNSNames : List String
  ExtraExtensions : List Extension
  PublicKey : RSAPublicKey
  signature : Signature
  deriving DecidableEq

/-- Structural model of a DER payload carried inside a PEM block: the
constructor records which marshaller produced the bytes, and `raw` stands
for any byte string produced by none of them (for instance a truncated
certificate body). -/
inductive Payload where
  | ecKeyDer (key : ECPrivateKey)
  | rsaKeyDer (key : RSAPrivateKey)
  | csrDer (req : CertificateRequest)
  | certDer (cert : Certificate)
  | raw (bytes : List Nat)
  deriving DecidableEq

/-- `type DERCertificateBytes []byte`: already-encoded bytes a caller
holds. -/
abbrev DERCertificateBytes := Payload

/-- Model of `pem.Block`: the label (`Type` in Go) and the DER payload
(`Bytes` in Go). -/
structure PEMBlock where
  type : String
  bytes : Payload
  deriving DecidableEq

/-- Model of `x509.ParseCertificate`: succeeds exactly on payloads written
by the certificate marshaller. -/
def parseCertificate : Payload → Option Certificate
  | .certDer cert => some cert
  | _ => none

/-- Model of `x509.ParseCertificateRequest`: succeeds exactly on payloads
written by `x509.CreateCertificateRequest`. -/
def parseCertificateRequest : Payload → Option CertificateRequest
  | .csrDer req => some req
  | _ => none

/-- Model of `x509.ParsePKCS1PrivateKey`. -/
def parsePKCS1PrivateKey : Payload → Option RSAPrivateKey
  | .rsaKeyDer key => some key
  | _ => none

/-- Model of `x509.ParseECPrivateKey`. -/
def parseECPrivateKey : Payload → Option ECPrivateKey
  | .ecKeyDer key => some key
  | _ => none

/-- The distinct error outcomes of this package, one constructor per error
the Go code returns (spec taxonomy name in parentheses where it has one):
`invalidKeyType` is the invalid-KeyType error (UnsupportedKeyType);
`invalidPEM` is the pem-decode-did-not-yield-a-valid-block error
(InvalidPEM); `unknownPEMHeader` is the unknown-PEM-header-value error;
`malformedKey` is an x509 key-parse failure; `notACSR` is the
block-is-not-a-certificate-request error (NotACSR); `malformedCSR` is an
`x509.ParseCertificateRequest` failure; `malformedCertificate` is an
`x509.ParseCertificate` failure (MalformedCertificate); `emptyBundle` is
the no-certificates-found error (EmptyBundle). -/
inductive CryptoError where
  | invalidKeyType
  | invalidPEM
  | unknownPEMHeader
  | malformedKey
  | notACSR
  | malformedCSR
  | malformedCertificate
  | emptyBundle
  deriving DecidableEq

/-- Outcome of a Go call: a value, a returned error, or a run-time panic
(nil-pointer dereference). -/
inductive GoResult (α : Type) where
  | ok (val : α)
  | error (e : CryptoError)
  | panic
  deriving DecidableEq

/-- `type KeyType string` -/
abbrev KeyType := String

/-- `EC256 = KeyType("P256")` -/
def EC256 : KeyType := "P256"

/-- `EC384 = KeyType("P384")` -/
def EC384 : KeyType := "P384"

/-- `RSA2048 = KeyType("2048")` -/
def RSA2048 : KeyType := "2048"

/-- `RSA4096 = KeyType("4096")` -/
def RSA4096 : KeyType := "4096"

/-- `RSA8192 = KeyType("8192")` -/
def RSA8192 : KeyType := "8192"

/-- `GeneratePrivateKey` dispatches on the `KeyType` string; `entropy` is
the value drawn from `rand.Reader` for the key material. -/
def GeneratePrivateKey (keyType : KeyType) (entropy : Nat) : GoResult PrivateKey :=
  if keyType = EC256 then .ok (.ec ⟨.p256, entropy⟩)
  else if keyType = EC384 then .ok (.ec ⟨.p384, entropy⟩)
  else if keyType = RSA2048 then .ok (.rsa ⟨2048, entropy⟩)
  else if keyType = RSA4096 then .ok (.rsa ⟨4096, entropy⟩)
  else if keyType = RSA8192 then .ok (.rsa ⟨8192, entropy⟩)
  else .error .invalidKeyType

/-- The block-collection loop of `ParsePEMBundle`: walk the stream, parse
every block labeled CERTIFICATE (keeping input order), skip other labels,
and fail on the first CERTIFICATE block whose payload does not parse. -/
def parsePEMBundleLoop : List PEMBlock → Except CryptoError (List Certificate)
  | [] => .ok []
  | certDERBlock :: bundle =>
    if certDERBlock.type = "CERTIFICATE" then
      match parseCertificate certDERBlock.bytes with
      | none => .error .malformedCertificate
      | some cert =>
        match parsePEMBundleLoop bundle with
        | .error e => .error e
        | .ok certificates => .ok (cert :: certificates)
    else
      parsePEMBundleLoop bundle

/-- `ParsePEMBundle`: collect the certificates of all CERTIFICATE blocks,
then fail if none were found. -/
def ParsePEMBundle (bundle : List PEMBlock) : Except CryptoError (List Certificate) :=
  match parsePEMBundleLoop bundle with
  | .error e => .error e
  | .ok certificates =>
    if certificates.length = 0 then .error .emptyBundle else .ok certificates

/-- `ParsePEMPrivateKey`: `pem.Decode` is the head of the stream.  Note the
missing nil check in the source: on an input with no locatable PEM block,
`keyBlock.Type` dereferences a nil pointer and the call panics. -/
def ParsePEMPrivateKey : List PEMBlock → GoResult PrivateKey
  | [] => .panic
  | keyBlock :: _ =>
    if keyBlock.type = "RSA PRIVATE KEY" then
      match parsePKCS1PrivateKey keyBlock.bytes with
      | some key => .ok (.rsa key)
      | none => .error .malformedKey
    else if keyBlock.type = "EC PRIVATE KEY" then
      match parseECPrivateKey keyBlock.bytes with
      | some key => .ok (.ec key)
      | none => .error .malformedKey
    else
      .error .unknownPEMHeader

/-- `GenerateCsr` builds the request template — subject common name, the
SAN list when non-empty, the must-staple extension when requested — and
signs it with the supplied key; the returned DER is modelled structurally. -/
def GenerateCsr (privateKey : PrivateKey) (domain : String) (san : List String)
    (mustStaple : Bool) : CertificateRequest :=
  { CommonName := domain
    DNSNames := if 0 < san.length then san else []
    ExtraExtensions :=
      if mustStaple then [⟨tlsFeatureExtensionOID, ocspMustStapleFeature⟩] else []
    signedBy := privateKey }

/-- The dynamically typed (`interface[]`) argument of `PEMEncode`: the four
types its switch recognises, plus `unsupported` standing for a value of
any other dynamic type. -/
inductive PEMEncodable where
  | ecKey (key : ECPrivateKey)
  | rsaKey (key : RSAPrivateKey)
  | csr (req : CertificateRequest)
  | derCert (payload : DERCertificateBytes)
  | unsupported
  deriving DecidableEq

/-- The bytes `PEMEncode` returns: `pem.EncodeToMemory` of the selected
block, or the nil-pointer dereference that `pem.EncodeToMemory(nil)`
performs when the type switch matched no case. -/
inductive EncodedPEM where
  | bytes (block : PEMBlock)
  | panicNilBlock
  deriving DecidableEq

/-- `PEMEncode` selects a PEM block by a type switch with no default case;
for any other value `pemBlock` stays nil and `pem.EncodeToMemory(pemBlock)`
dereferences nil.  The function has no error return at all. -/
def PEMEncode : PEMEncodable → EncodedPEM
  | .ecKey key => .bytes ⟨"EC PRIVATE KEY", .ecKeyDer key⟩
  | .rsaKey key => .bytes ⟨"RSA PRIVATE KEY", .rsaKeyDer key⟩
  | .csr req => .bytes ⟨"CERTIFICATE REQUEST", .csrDer req⟩
  | .derCert payload => .bytes ⟨"CERTIFICATE", payload⟩
  | .unsupported => .panicNilBlock

/-- `pem.Decode` applied to bytes `pem.EncodeToMemory` produced: the
stream holds exactly the encoded block (the PEM encode/decode round-trip
of the Go pem package). -/
def decodedStream : EncodedPEM → List PEMBlock
  | .bytes block => [block]
  | .panicNilBlock => []

/-- The Go dynamic dispatch of `PEMEncode` on a `crypto.PrivateKey`: the
concrete type is `*ecdsa.PrivateKey` or `*rsa.PrivateKey`, matching the
first or second case of the switch. -/
def PEMEncodableOfPrivateKey : PrivateKey → PEMEncodable
  | .ec key => .ecKey key
  | .rsa key => .rsaKey key

/-- `pemDecode`: the first locatable block, or the invalid-PEM error. -/
def pemDecode : List PEMBlock → Except CryptoError PEMBlock
  | [] => .error .invalidPEM
  | pemBlock :: _ => .ok pemBlock

/-- `PemDecodeTox509CSR`: decode one block, require the CERTIFICATE REQUEST
label, parse the payload as a certificate request. -/
def PemDecodeTox509CSR (pem : List PEMBlock) : Except CryptoError CertificateRequest :=
  match pemDecode pem with
  | .error e => .error e
  | .ok pemBlock =>
    if pemBlock.type ≠ "CERTIFICATE REQUEST" then .error .notACSR
    else
      match parseCertificateRequest pemBlock.bytes with
      | none => .error .malformedCSR
      | some req => .ok req

/-- `getCertExpiration`: parse DER as a certificate and return NotAfter. -/
def getCertExpiration (cert : Payload) : Except CryptoError Int :=
  match parseCertificate cert with
  | none => .error .malformedCertificate
  | some pCert => .ok pCert.NotAfter

/-- `GetPEMCertExpiration`: decode the first PEM block — whatever its label
— and read the expiration from its payload. -/
def GetPEMCertExpiration (cert : List PEMBlock) : Except CryptoError Int :=
  match pemDecode cert with
  | .error e => .error e
  | .ok pemBlock => getCertExpiration pemBlock.bytes

/-- One day in nanoseconds (Go `time.Duration` counts nanoseconds). -/
def nanosecondsPerDay : Int := 86400 * 1000000000

/-- Model of `x509.CreateCertificate(rand, template, parent, pub, priv)`:
the fields come from the template, the issuer from the parent's subject,
and the result embeds `pub` and a signature by `priv`. -/
def createCertificate (template parent : Certificate) (pub : RSAPublicKey)
    (priv : RSAPrivateKey) : Certificate :=
  { SerialNumber := template.SerialNumber
    SubjectCommonName := template.SubjectCommonName
    IssuerCommonName := parent.SubjectCommonName
    NotBefore := template.NotBefore
    NotAfter := template.NotAfter
    KeyUsageKeyEncipherment := template.KeyUsageKeyEncipherment
    BasicConstraintsValid := template.BasicConstraintsValid
    IsCA := template.IsCA
    DNSNames := template.DNSNames
    ExtraExtensions := template.ExtraExtensions
    PublicKey := pub
    signature := rsaSign priv }

/-- `generateDerCert`.  `now` is `time.Now()` and `serialEntropy` the draw
behind `rand.Int(rand.Reader, 1 <<< 128)`; `expiration = 0` is the zero
`time.Time` detected by `IsZero`.  The fields the Go template leaves at
their zero value (issuer, public key, signature) are zero here and are
overwritten by `createCertificate`.  Note the fallback
`time.Now().Add(365)`: the untyped constant 365 is a `time.Duration` of
365 nanoseconds. -/
def generateDerCert (privKey : RSAPrivateKey) (expiration : Int) (domain : String)
    (extensions : List Extension) (now : Int) (serialEntropy : Nat) : Certificate :=
  let serialNumber := serialEntropy % 2 ^ 128
  let expirationVal := if expiration = 0 then now + 365 else expiration
  let template : Certificate :=
    { SerialNumber := serialNumber
      SubjectCommonName := "ACME Challenge TEMP"
      IssuerCommonName := ""
      NotBefore := now
      NotAfter := expirationVal
      KeyUsageKeyEncipherment := true
      BasicConstraintsValid := true
      IsCA := false
      DNSNames := [domain]
      ExtraExtensions := extensions
      PublicKey := ⟨0, 0⟩
      signature := ⟨0⟩ }
  createCertificate template template privKey.PublicKey privKey

/-- `GeneratePemCert` calls `generateDerCert` with the zero expiration
(`time.Time[]`) and wraps the DER bytes in a CERTIFICATE block. -/
def GeneratePemCert (privKey : RSAPrivateKey) (domain : String)
    (extensions : List Extension) (now : Int) (serialEntropy : Nat) : PEMBlock :=
  ⟨"CERTIFICATE", .certDer (generateDerCert privKey 0 domain extensions now serialEntropy)⟩

/-- The certificate one block of a bundle contributes, if any: blocks not
labeled CERTIFICATE contribute nothing. -/
def certOfBlock (b : PEMBlock) : Option Certificate :=
  if b.type = "CERTIFICATE" then parseCertificate b.bytes else none

/-- Claim C1: evaluation at an input outside the four encodable variants —
`PEMEncode` does not fail with a typed UnsupportedValueType error; its
switch has no default case, `pemBlock` stays nil and
`pem.EncodeToMemory(nil)` dereferences nil.  There is no error channel in
the result at all. -/
theorem c1_PEMEncode_unsupported_panics :
    PEMEncode .unsupported = .panicNilBlock :=
  rfl

/-- Claim C4: evaluation at an input with no locatable PEM block:
`pemDecode` returns the typed invalid-PEM error, but `ParsePEMPrivateKey`
dereferences the nil block returned by `pem.Decode` and panics instead of
returning a typed error. -/
theorem c4_pemDecode_typed_but_ParsePEMPrivateKey_panics :
    pemDecode [] = .error .invalidPEM ∧ ParsePEMPrivateKey [] = .panic :=
  ⟨rfl, rfl⟩

/-- Claim C5: evaluation of the default-expiration path: with the zero
expiration (exactly what `GeneratePemCert` passes) the generated
certificate expires `now + 365` — 365 nanoseconds after the current time,
far below even a single day — not after a days-scale default validity
window. -/
theorem c5_default_expiration_is_365_nanoseconds :
    (generateDerCert ⟨2048, 7⟩ 0 "example.com" [] 1700000000000000000 3).NotAfter
        = 1700000000000000000 + 365
    ∧ (GeneratePemCert ⟨2048, 7⟩ "example.com" [] 1700000000000000000 3).bytes
        = .certDer (generateDerCert ⟨2048, 7⟩ 0 "example.com" [] 1700000000000000000 3)
    ∧ (365 : Int) < nanosecondsPerDay := by
  refine ⟨rfl, rfl, by decide⟩

/-- Claim C6: `GenerateCsr` with mustStaple set attaches exactly one
extension, with OID 1.3.6.1.5.5.7.1.24 and value the five bytes
30 03 02 01 05; with mustStaple unset the extension list is empty. -/
theorem c6_GenerateCsr_mustStaple_extension (privateKey : PrivateKey)
    (domain : String) (san : List String) :
    (GenerateCsr privateKey domain san true).ExtraExtensions
        = [⟨[1, 3, 6, 1, 5, 5, 7, 1, 24], [0x30, 0x03, 0x02, 0x01, 0x05]⟩]
    ∧ (GenerateCsr privateKey domain san false).ExtraExtensions = [] :=
  ⟨rfl, rfl⟩

/-- If some CERTIFICATE block of the stream has an unparseable payload, the
collection loop fails with the malformed-certificate error. -/
theorem parsePEMBundleLoop_malformed (bundle : List PEMBlock)
    (h : ∃ b ∈ bundle, b.type = "CERTIFICATE" ∧ parseCertificate b.bytes = none) :
    parsePEMBundleLoop bundle = .error .malformedCertificate := by
  induction bundle with
  | nil => simp at h
  | cons head tail ih =>
    rcases h with ⟨b, hb, htype, hparse⟩
    rcases List.mem_cons.mp hb with rfl | hmem
    · simp [parsePEMBundleLoop, htype, hparse]
    · by_cases hh : head.type = "CERTIFICATE"
      · cases hp : parseCertificate head.bytes with
        | none => simp [parsePEMBundleLoop, hh, hp]
        | some c =>
          have htail := ih ⟨b, hmem, htype, hparse⟩
          simp [parsePEMBundleLoop, hh, hp, htail]
      · have htail := ih ⟨b, hmem, htype, hparse⟩
        simp [parsePEMBundleLoop, hh, htail]

/-- Claim C2: a bundle containing at least one CERTIFICATE-labeled block
whose payload does not parse as a certificate fails as a whole with the
malformed-certificate error — no partial list is returned — however many
well-formed certificate blocks precede or follow it. -/
theorem c2_ParsePEMBundle_malformed (bundle : List PEMBlock)
    (h : ∃ b ∈ bundle, b.type = "CERTIFICATE" ∧ parseCertificate b.bytes = none) :
    ParsePEMBundle bundle = .error .malformedCertificate := by
  unfold ParsePEMBundle
  rw [parsePEMBundleLoop_malformed bundle h]

/-- Claim C2 witness: a concrete bundle holding one well-formed and one
truncated certificate block fails with the malformed-certificate error. -/
theorem c2_witness :
    ParsePEMBundle
        [⟨"CERTIFICATE",
          .certDer ⟨1, "leaf", "ca", 0, 100, true, true, false, ["a"], [], ⟨2048, 5⟩, ⟨5⟩⟩⟩,
         ⟨"CERTIFICATE", .raw [48, 1]⟩]
      = .error .malformedCertificate :=
  c2_ParsePEMBundle_malformed _
    ⟨⟨"CERTIFICATE", .raw [48, 1]⟩, by decide, by decide, by decide⟩

/-- If every CERTIFICATE block of the stream parses, the collection loop
returns exactly the certificates of those blocks, in input order. -/
theorem parsePEMBundleLoop_all_valid (bundle : List PEMBlock)
    (h : ∀ b ∈ bundle, b.type = "CERTIFICATE" → (parseCertificate b.bytes).isSome) :
    parsePEMBundleLoop bundle = .ok (bundle.filterMap certOfBlock) := by
  induction bundle with
  | nil => rfl
  | cons head tail ih =>
    have htail : ∀ b ∈ tail, b.type = "CERTIFICATE" → (parseCertificate b.bytes).isSome :=
      fun b hb => h b (List.mem_cons_of_mem _ hb)
    by_cases hh : head.type = "CERTIFICATE"
    · have hsome := h head (List.mem_cons_self _ _) hh
      cases hp : parseCertificate head.bytes with
      | none => rw [hp] at hsome; simp at hsome
      | some c =>
        simp [parsePEMBundleLoop, hh, hp, ih htail, certOfBlock, List.filterMap_cons]
    · simp [parsePEMBundleLoop, hh, ih htail, certOfBlock, List.filterMap_cons]

/-- Claim C3: when every CERTIFICATE-labeled block of the stream parses,
the bundle parse returns exactly the certificates of those blocks in input
order, skipping blocks of other labels without error; when the stream has
no CERTIFICATE block at all — even if other blocks are present — it fails
with the empty-bundle error. -/
theorem c3_ParsePEMBundle_valid (bundle : List PEMBlock)
    (h : ∀ b ∈ bundle, b.type = "CERTIFICATE" → (parseCertificate b.bytes).isSome) :
    ParsePEMBundle bundle =
      if (bundle.filterMap certOfBlock).length = 0 then .error .emptyBundle
      else .ok (bundle.filterMap certOfBlock) := by
  unfold ParsePEMBundle
  rw [parsePEMBundleLoop_all_valid bundle h]

/-- Claim C3 witness: two valid certificate blocks interleaved with a
private-key block parse to exactly those two certificates in input order. -/
theorem c3_witness :
    ParsePEMBundle
        [⟨"CERTIFICATE",
          .certDer ⟨1, "one", "ca", 0, 10, true, true, false, ["a"], [], ⟨2048, 1⟩, ⟨1⟩⟩⟩,
         ⟨"RSA PRIVATE KEY", .rsaKeyDer ⟨2048, 4⟩⟩,
         ⟨"CERTIFICATE",
          .certDer ⟨2, "two", "ca", 0, 20, true, true, false, ["b"], [], ⟨2048, 2⟩, ⟨2⟩⟩⟩]
      = .ok
          [⟨1, "one", "ca", 0, 10, true, true, false, ["a"], [], ⟨2048, 1⟩, ⟨1⟩⟩,
           ⟨2, "two", "ca", 0, 20, true, true, false, ["b"], [], ⟨2048, 2⟩, ⟨2⟩⟩] := by
  rw [c3_ParsePEMBundle_valid _ (by decide)]
  rfl

/-- Claim C7: building a CSR, PEM-encoding it and decoding it back
recovers a certificate request whose subject common name is the supplied
domain and whose DNS-name list is the supplied SAN list verbatim, in the
same order. -/
theorem c7_csr_encode_decode_roundtrip (privateKey : PrivateKey) (domain : String)
    (san : List String) (mustStaple : Bool) :
    ∃ req : CertificateRequest,
      PemDecodeTox509CSR
          (decodedStream (PEMEncode (.csr (GenerateCsr privateKey domain san mustStaple))))
        = .ok req
      ∧ req.CommonName = domain ∧ req.DNSNames = san := by
  refine ⟨GenerateCsr privateKey domain san mustStaple, rfl, rfl, ?_⟩
  cases san with
  | nil => rfl
  | cons a l => simp [GenerateCsr]

/-- Claim C8: for each of the five key types, generating a key, encoding
it to PEM, decoding the PEM back to a key and encoding again yields PEM
output identical to the first encoding. -/
theorem c8_generate_encode_decode_reencode (keyType : KeyType) (entropy : Nat)
    (h : keyType = EC256 ∨ keyType = EC384 ∨ keyType = RSA2048 ∨
      keyType = RSA4096 ∨ keyType = RSA8192) :
    ∃ key block key2,
      GeneratePrivateKey keyType entropy = .ok key
      ∧ PEMEncode (PEMEncodableOfPrivateKey key) = .bytes block
      ∧ ParsePEMPrivateKey (decodedStream (.bytes block)) = .ok key2
      ∧ PEMEncode (PEMEncodableOfPrivateKey key2) = .bytes block := by
  rcases h with rfl | rfl | rfl | rfl | rfl
  · exact ⟨.ec ⟨.p256, entropy⟩, ⟨"EC PRIVATE KEY", .ecKeyDer ⟨.p256, entropy⟩⟩,
      .ec ⟨.p256, entropy⟩, rfl, rfl, rfl, rfl⟩
  · exact ⟨.ec ⟨.p384, entropy⟩, ⟨"EC PRIVATE KEY", .ecKeyDer ⟨.p384, entropy⟩⟩,
      .ec ⟨.p384, entropy⟩, rfl, rfl, rfl, rfl⟩
  · exact ⟨.rsa ⟨2048, entropy⟩, ⟨"RSA PRIVATE KEY", .rsaKeyDer ⟨2048, entropy⟩⟩,
      .rsa ⟨2048, entropy⟩, rfl, rfl, rfl, rfl⟩
  · exact ⟨.rsa ⟨4096, entropy⟩, ⟨"RSA PRIVATE KEY", .rsaKeyDer ⟨4096, entropy⟩⟩,
      .rsa ⟨4096, entropy⟩, rfl, rfl, rfl, rfl⟩
  · exact ⟨.rsa ⟨8192, entropy⟩, ⟨"RSA PRIVATE KEY", .rsaKeyDer ⟨8192, entropy⟩⟩,
      .rsa ⟨8192, entropy⟩, rfl, rfl, rfl, rfl⟩

/-- Claim C8 witness: the round trip at the concrete key type EC256 and a
concrete entropy draw. -/
theorem c8_witness :
    ∃ key block key2,
      GeneratePrivateKey EC256 42 = .ok key
      ∧ PEMEncode (PEMEncodableOfPrivateKey key) = .bytes block
      ∧ ParsePEMPrivateKey (decodedStream (.bytes block)) = .ok key2
      ∧ PEMEncode (PEMEncodableOfPrivateKey key2) = .bytes block :=
  c8_generate_encode_decode_reencode EC256 42 (Or.inl rfl)

/-- Claim C9: the self-signed generator produces a certificate whose SAN
list is exactly the supplied domain, whose issuer equals its subject,
whose signature verifies against its own embedded public key, and whose
serial number is the uniform 128-bit draw — in particular below 2^128. -/
theorem c9_generateDerCert_self_signed (privKey : RSAPrivateKey) (expiration : Int)
    (domain : String) (extensions : List Extension) (now : Int) (serialEntropy : Nat) :
    (generateDerCert privKey expiration domain extensions now serialEntropy).DNSNames
        = [domain]
    ∧ (generateDerCert privKey expiration domain extensions now serialEntropy).IssuerCommonName
        = (generateDerCert privKey expiration domain extensions now serialEntropy).SubjectCommonName
    ∧ rsaVerify
        (generateDerCert privKey expiration domain extensions now serialEntropy).PublicKey
        (generateDerCert privKey expiration domain extensions now serialEntropy).signature
        = true
    ∧ (generateDerCert privKey expiration domain extensions now serialEntropy).SerialNumber
        = serialEntropy % 2 ^ 128
    ∧ (generateDerCert privKey expiration domain extensions now serialEntropy).SerialNumber
        < 2 ^ 128 := by
  refine ⟨rfl, rfl, ?_, rfl, ?_⟩
  · simp [generateDerCert, createCertificate, rsaVerify, rsaSign, RSAPrivateKey.PublicKey]
  · exact Nat.mod_lt _ (by positivity)

/-- Claim C10: the expiration inspector uses only the first locatable PEM
block and ignores its label: its result is exactly `getCertExpiration` of
the first block payload, independent of the remaining blocks and of the
label; when that payload does not parse as a certificate the failure is
the malformed-certificate error, never a block-type error. -/
theorem c10_GetPEMCertExpiration_first_block (b : PEMBlock) (rest : List PEMBlock) :
    GetPEMCertExpiration (b :: rest) = getCertExpiration b.bytes
    ∧ (parseCertificate b.bytes = none →
        GetPEMCertExpiration (b :: rest) = .error .malformedCertificate) := by
  refine ⟨rfl, fun h => ?_⟩
  simp [GetPEMCertExpiration, pemDecode, getCertExpiration, h]

/-- Claim C10 witness: a stream whose first block is a private-key block
followed by a valid certificate block; the inspector still tries to parse
the first payload as a certificate and fails with the
malformed-certificate error. -/
theorem c10_witness :
    GetPEMCertExpiration
        [⟨"RSA PRIVATE KEY", .rsaKeyDer ⟨2048, 9⟩⟩,
         ⟨"CERTIFICATE",
          .certDer ⟨1, "s", "i", 0, 50, true, true, false, ["d"], [], ⟨2048, 9⟩, ⟨9⟩⟩⟩]
      = .error .malformedCertificate :=
  (c10_GetPEMCertExpiration_first_block _ _).2 rfl
